import Mathlib

/-!
Shallow embedding of `app.py` (cloud-native monitoring app), covering the
stateful rate-computation engine (`_calc_speed`, `get_io_and_net_speeds`,
the module-global `_prev_snapshot`), the CPU-percentage fallback in the
`/api/metrics` handler, and the assembly of the metrics response object.

Numbers are modelled as exact rationals (the Python code works with floats;
claims about rates are read "within floating-point tolerance", which the
exact rational model settles exactly).  Python truthiness of a number
(`0`/`0.0`/`None` are falsy) is modelled explicitly, because the source
relies on it (`if prev_time and prev_net:`, `prev_val or now_val`).
A psutil read that raises is modelled as `none` handed to the function,
mirroring the `try/except` blocks that produce `None`/`{}` fallbacks.
-/

/-- Python truthiness of an optional number: `None`, `0` and `0.0` are falsy. -/
def truthyQ : Option ℚ → Bool
  | none => false
  | some q => decide (q ≠ 0)

/-- Python `a or b` on optional numbers: `a` when truthy, else `b`. -/
def optOr (a b : Option ℚ) : Option ℚ :=
  if truthyQ a then a else b

/-- One row of `psutil.net_io_counters` (aggregate or per-NIC).  The byte
counters are always present on the namedtuple; the packet counters are read
with `getattr(..., None)` in the source, hence optional here. -/
structure NetCounters where
  bytes_sent : ℚ
  bytes_recv : ℚ
  packets_sent : Option ℚ
  packets_recv : Option ℚ
deriving DecidableEq

/-- Fields of `psutil.disk_io_counters()`: byte counters accessed directly, the two
count fields read with `getattr(..., None)` in the source. -/
structure DiskCounters where
  read_bytes : ℚ
  write_bytes : ℚ
  read_count : Option ℚ
  write_count : Option ℚ
deriving DecidableEq

/-- The module-global `_prev_snapshot` dict of `app.py` (lines 18-23):
`time`, `net`, `net_pernic` (a dict, `none` = `None`, `some []` = `{}`),
and the disk counters (source key `"disk_io"`). -/
structure Snapshot where
  time : Option ℚ
  net : Option NetCounters
  net_pernic : Option (List (String × NetCounters))
  disk : Option DiskCounters
deriving DecidableEq

/-- The `_prev_snapshot` value at process start: every field `None`. -/
def initSnapshot : Snapshot := ⟨none, none, none, none⟩

/-- The `speeds["net"]` sub-dict of `get_io_and_net_speeds`. -/
structure NetSpeeds where
  bytes_sent_per_sec : ℚ
  bytes_recv_per_sec : ℚ
deriving DecidableEq

/-- One entry of `speeds["per_nic"]`. -/
structure NicSpeed where
  bytes_sent_per_sec : ℚ
  bytes_recv_per_sec : ℚ
  packets_sent : Option ℚ
  packets_recv : Option ℚ
deriving DecidableEq

/-- The `speeds["disk_io"]` sub-dict of `get_io_and_net_speeds`. -/
structure DiskSpeeds where
  read_bytes_per_sec : ℚ
  write_bytes_per_sec : ℚ
  read_count : Option ℚ
  write_count : Option ℚ
deriving DecidableEq

/-- The full `speeds` dict returned by `get_io_and_net_speeds` (source key
of the `disk` field is `"disk_io"`). -/
structure Speeds where
  net : NetSpeeds
  per_nic : List (String × NicSpeed)
  disk : DiskSpeeds
deriving DecidableEq

/-- The function `_calc_speed(now, prev, now_val, prev_val)` (app.py lines 119-124):

    dt = max(now - (prev or now), 1e-6)
    try: return (now_val - (prev_val or now_val)) / dt
    except Exception: return 0.0

`prev or now` / `prev_val or now_val` use Python truthiness (`None` and `0`
both fall through to the right operand).  A `None` minuend (`now_val is
None`) raises `TypeError`, which the bare `except` turns into `0.0`; the
divisor is at least `1e-6 > 0`, so no division fault is possible. -/
def _calc_speed (now : ℚ) (prev : Option ℚ) (now_val prev_val : Option ℚ) : ℚ :=
  let dt : ℚ := max (now - (if truthyQ prev then prev.getD now else now)) (1/1000000)
  match now_val with
  | none => 0
  | some nv => (nv - (if truthyQ prev_val then prev_val.getD nv else nv)) / dt

/-- Line `prev_net_pernic.get(nic) if prev_net_pernic else None` (app.py line
168): a falsy previous per-NIC dict (`None` or `{}`) yields `None`; a list
lookup on `[]` is `none` as well, so the two falsy cases coincide. -/
def prevNicLookup (pp : Option (List (String × NetCounters))) (nic : String) :
    Option NetCounters :=
  match pp with
  | none => none
  | some pl => pl.lookup nic

/-- The body of the per-NIC loop of `get_io_and_net_speeds` (app.py lines
167-180): rates from `_calc_speed` when `prev_time and prev_c` is truthy,
else `0.0`; packet counts always copied from the current counters. -/
def nicEntry (now : ℚ) (ptime : Option ℚ) (pp : Option (List (String × NetCounters)))
    (nic : String) (c : NetCounters) : NicSpeed :=
  match prevNicLookup pp nic with
  | some pc =>
      if truthyQ ptime then
        ⟨_calc_speed now ptime (some c.bytes_sent) (some pc.bytes_sent),
         _calc_speed now ptime (some c.bytes_recv) (some pc.bytes_recv),
         c.packets_sent, c.packets_recv⟩
      else ⟨0, 0, c.packets_sent, c.packets_recv⟩
  | none => ⟨0, 0, c.packets_sent, c.packets_recv⟩

/-- The function `get_io_and_net_speeds()` (app.py lines 126-197), with the psutil reads
and `time.time()` passed in as arguments (`none` = the corresponding
`except` branch fired; a failed per-NIC read passes `some []`, the `{}`
fallback of line 135) and the global `_prev_snapshot` threaded explicitly:
returns the `speeds` dict and the new value of `_prev_snapshot`
(lines 192-195 store `now` and the three reads wholesale). -/
def get_io_and_net_speeds (now : ℚ) (net : Option NetCounters)
    (net_pernic : Option (List (String × NetCounters)))
    (dk : Option DiskCounters) (prev : Snapshot) : Speeds × Snapshot :=
  let netSp : NetSpeeds :=
    match net, prev.net with
    | some n, some pn =>
        if truthyQ prev.time then
          ⟨_calc_speed now prev.time (some n.bytes_sent) (some pn.bytes_sent),
           _calc_speed now prev.time (some n.bytes_recv) (some pn.bytes_recv)⟩
        else ⟨0, 0⟩
    | _, _ => ⟨0, 0⟩
  let perNic : List (String × NicSpeed) :=
    match net_pernic with
    | none => []
    | some l => l.map (fun p => (p.1, nicEntry now prev.time prev.net_pernic p.1 p.2))
  let diskSp : DiskSpeeds :=
    match dk, prev.disk with
    | some d, some pd =>
        if truthyQ prev.time then
          ⟨_calc_speed now prev.time (some d.read_bytes) (some pd.read_bytes),
           _calc_speed now prev.time (some d.write_bytes) (some pd.write_bytes),
           d.read_count, d.write_count⟩
        else ⟨0, 0, d.read_count, d.write_count⟩
    | some d, none => ⟨0, 0, d.read_count, d.write_count⟩
    | none, _ => ⟨0, 0, none, none⟩
  (⟨netSp, perNic, diskSp⟩, ⟨some now, net, net_pernic, dk⟩)

/-! ### CPU sampling with synthetic fallback (app.py lines 227-239) -/

/-- Round half to even, the rounding mode of Python's builtin `round`. -/
def roundHalfEven (q : ℚ) : ℤ :=
  if q - ⌊q⌋ < 1/2 then ⌊q⌋
  else if 1/2 < q - ⌊q⌋ then ⌊q⌋ + 1
  else if ⌊q⌋ % 2 = 0 then ⌊q⌋ else ⌊q⌋ + 1

/-- Python `round(q, 1)` on the exact rational model. -/
def pyRound1 (q : ℚ) : ℚ := (roundHalfEven (q * 10) : ℚ) / 10

/-- Python `sum(l) / len(l)` (Lean's rational division, so `[] ↦ 0`; the source
only divides by the length of a non-empty list). -/
def listMean (l : List ℚ) : ℚ := l.sum / (l.length : ℚ)

/-- Python `psutil.cpu_count(logical=True) or 1` (lines 233 and 237): a `None` or
`0` count falls back to `1`. -/
def cpuLogicalOr1 (cc : Option ℕ) : ℕ :=
  match cc with
  | none => 1
  | some 0 => 1
  | some n => n

/-- Python `[random.randint(6, 10) for _ in range(cpu_count)]`: the random draws
are an input stream `draws`, one integer per core. -/
def cpuFallbackList (cc : Option ℕ) (draws : ℕ → ℤ) : List ℚ :=
  (List.range (cpuLogicalOr1 cc)).map (fun i => ((draws i : ℤ) : ℚ))

/-- The shared fallback body of lines 233-235 and 237-239: synthetic
per-core values plus `round(sum/len, 1)`. -/
def cpuFallback (cc : Option ℕ) (draws : ℕ → ℤ) : ℚ × List ℚ :=
  (pyRound1 (listMean (cpuFallbackList cc draws)), cpuFallbackList cc draws)

/-- Lines 227-239 of the `/api/metrics` handler: `reading` is the result of
`psutil.cpu_percent(interval=0.5, percpu=True)` (`none` = it raised).  If
the reading is truthy (non-empty) and some entry is `> 0`, the overall
percentage is the rounded mean of the reading; otherwise the synthetic
fallback replaces the per-CPU list.  Returns `(cpu_overall, cpu_percpu)`. -/
def metricsCpuSample (reading : Option (List ℚ)) (cc : Option ℕ) (draws : ℕ → ℤ) :
    ℚ × List ℚ :=
  match reading with
  | some l =>
      if !l.isEmpty && l.any (fun p => decide (0 < p)) then
        (pyRound1 (listMean l), l)
      else cpuFallback cc draws
  | none => cpuFallback cc draws

/-! ### The unlocked snapshot store under concurrent pollers

`get_io_and_net_speeds` reads the four fields of the global
`_prev_snapshot` one dict access at a time (lines 142-145) and writes them
back one dict access at a time (lines 192-195), with no lock anywhere in
`app.py`.  Under CPython threading each single dict access is atomic, but
nothing keeps two concurrent polls from interleaving between those
accesses.  The model below tags every store field with the identity of the
raw sample it came from, makes each of the eight accesses one atomic step,
and lets a boolean schedule interleave two pollers. -/

/-- One atomic access to `_prev_snapshot`: a read of one field
(lines 142-145) or a write of one field (lines 192-195). -/
inductive StoreAct where
  | readTime | readNet | readPernic | readDisk
  | writeTime | writeNet | writePernic | writeDisk
deriving DecidableEq

/-- The store, each field tagged with the id of the raw sample whose data
it currently holds. -/
structure StoreTags where
  time : ℕ
  net : ℕ
  pernic : ℕ
  disk : ℕ
deriving DecidableEq

/-- One poller: the id of the raw sample it will write, the accesses still
to perform, and the previous-sample fields it has observed so far. -/
structure PollerState where
  sid : ℕ
  todo : List StoreAct
  obsTime : Option ℕ
  obsNet : Option ℕ
  obsPernic : Option ℕ
  obsDisk : Option ℕ
deriving DecidableEq

/-- Effect of one atomic access on the store and the acting poller. -/
def execAct (st : StoreTags) (p : PollerState) : StoreAct → StoreTags × PollerState
  | .readTime => (st, { p with obsTime := some st.time })
  | .readNet => (st, { p with obsNet := some st.net })
  | .readPernic => (st, { p with obsPernic := some st.pernic })
  | .readDisk => (st, { p with obsDisk := some st.disk })
  | .writeTime => ({ st with time := p.sid }, p)
  | .writeNet => ({ st with net := p.sid }, p)
  | .writePernic => ({ st with pernic := p.sid }, p)
  | .writeDisk => ({ st with disk := p.sid }, p)

/-- The access sequence of one call to `get_io_and_net_speeds`: four field
reads (lines 142-145) followed by four field writes (lines 192-195). -/
def pollProgram : List StoreAct :=
  [.readTime, .readNet, .readPernic, .readDisk,
   .writeTime, .writeNet, .writePernic, .writeDisk]

/-- Run the next pending access of a poller (a finished poller is a no-op). -/
def stepPoller (st : StoreTags) (p : PollerState) : StoreTags × PollerState :=
  match p.todo with
  | [] => (st, p)
  | a :: rest => execAct st { p with todo := rest } a

/-- Interleave two pollers according to a boolean schedule
(`false` = step poller A, `true` = step poller B). -/
def runSched : List Bool → StoreTags → PollerState → PollerState →
    StoreTags × PollerState × PollerState
  | [], st, pa, pb => (st, pa, pb)
  | false :: s, st, pa, pb =>
      let r := stepPoller st pa
      runSched s r.1 r.2 pb
  | true :: s, st, pa, pb =>
      let r := stepPoller st pb
      runSched s r.1 pa r.2

/-- A fresh poller about to run one full poll writing sample `sid`. -/
def mkPoller (sid : ℕ) : PollerState := ⟨sid, pollProgram, none, none, none, none⟩

/-- A poller's observation of the previous sample is self-consistent when
all four observed fields carry one and the same raw-sample id. -/
def consistentObs (p : PollerState) : Prop :=
  ∃ k, p.obsTime = some k ∧ p.obsNet = some k ∧
    p.obsPernic = some k ∧ p.obsDisk = some k

/-- The schedule in which poller A performs its four reads and its `time`
write, then poller B performs its four reads, then both finish. -/
def schedMix : List Bool :=
  [false, false, false, false, false,
   true, true, true, true,
   false, false, false,
   true, true, true, true]

/-- A fully serial schedule: all of A, then all of B. -/
def schedSerial : List Bool :=
  [false, false, false, false, false, false, false, false,
   true, true, true, true, true, true, true, true]

/-! ### The `/api/metrics` response object (app.py lines 225-374) -/

/-- JSON-like values, the shape of what `jsonify` receives. -/
inductive JVal where
  | null : JVal
  | num : ℚ → JVal
  | str : String → JVal
  | jbool : Bool → JVal
  | arr : List JVal → JVal
  | obj : List (String × JVal) → JVal

/-- An optional number as a JSON value (`None ↦ null`). -/
def optNumJ : Option ℚ → JVal
  | none => JVal.null
  | some q => JVal.num q

/-- An optional natural as a JSON value. -/
def optNatJ : Option ℕ → JVal
  | none => JVal.null
  | some n => JVal.num (n : ℚ)

/-- An optional integer as a JSON value. -/
def optIntJ : Option ℤ → JVal
  | none => JVal.null
  | some n => JVal.num (n : ℚ)

/-- An optional string as a JSON value. -/
def optStrJ : Option String → JVal
  | none => JVal.null
  | some s => JVal.str s

/-- The `psutil.virtual_memory()` fields used by the handler (lines 256-265);
`pfaults`/`pageins` are read with `getattr(..., None)`. -/
structure VMemInfo where
  percent : ℚ
  total : ℚ
  available : ℚ
  pfaults : Option ℚ
  pageins : Option ℚ
deriving DecidableEq

/-- The `psutil.swap_memory()` fields used by the handler. -/
structure SwapInfo where
  percent : ℚ
  total : ℚ
deriving DecidableEq

/-- Shape of `psutil.net_io_counters(pernic=False)._asdict()` (line 289). -/
structure NetTotals where
  bytes_sent : ℚ
  bytes_recv : ℚ
  packets_sent : ℚ
  packets_recv : ℚ
  errin : ℚ
  errout : ℚ
  dropin : ℚ
  dropout : ℚ
deriving DecidableEq

/-- Shape of `psutil.disk_io_counters()._asdict()` (line 298). -/
structure DiskTotals where
  read_count : ℚ
  write_count : ℚ
  read_bytes : ℚ
  write_bytes : ℚ
  read_time : ℚ
  write_time : ℚ
deriving DecidableEq

/-- The `psutil.sensors_battery()` fields used by the handler. -/
structure BatteryInfo where
  percent : ℚ
  secsleft : ℚ
  power_plugged : Bool
deriving DecidableEq

/-- Lines 287-291: the network-totals section, with the all-zero literal
dict of line 291 when the read raised. -/
def netTotalsSection : Option NetTotals → JVal
  | some n => JVal.obj
      [("bytes_sent", JVal.num n.bytes_sent), ("bytes_recv", JVal.num n.bytes_recv),
       ("packets_sent", JVal.num n.packets_sent), ("packets_recv", JVal.num n.packets_recv),
       ("errin", JVal.num n.errin), ("errout", JVal.num n.errout),
       ("dropin", JVal.num n.dropin), ("dropout", JVal.num n.dropout)]
  | none => JVal.obj
      [("bytes_sent", JVal.num 0), ("bytes_recv", JVal.num 0),
       ("packets_sent", JVal.num 0), ("packets_recv", JVal.num 0),
       ("errin", JVal.num 0), ("errout", JVal.num 0),
       ("dropin", JVal.num 0), ("dropout", JVal.num 0)]

/-- Lines 296-300: the disk-io-totals section, with the all-`None` literal
dict of line 300 when the read raised. -/
def diskTotalsSection : Option DiskTotals → JVal
  | some d => JVal.obj
      [("read_count", JVal.num d.read_count), ("write_count", JVal.num d.write_count),
       ("read_bytes", JVal.num d.read_bytes), ("write_bytes", JVal.num d.write_bytes),
       ("read_time", JVal.num d.read_time), ("write_time", JVal.num d.write_time)]
  | none => JVal.obj
      [("read_count", JVal.null), ("write_count", JVal.null),
       ("read_bytes", JVal.null), ("write_bytes", JVal.null),
       ("read_time", JVal.null), ("write_time", JVal.null)]

/-- Lines 308-318: the battery section.  `none` = `sensors_battery()`
raised (line 318); `some none` = it returned `None`; either way the section
is present with `present = false` and null fields. -/
def batterySection : Option (Option BatteryInfo) → JVal
  | some (some b) => JVal.obj
      [("present", JVal.jbool true), ("percent", JVal.num b.percent),
       ("secsleft", JVal.num b.secsleft), ("power_plugged", JVal.jbool b.power_plugged)]
  | some none => JVal.obj
      [("present", JVal.jbool false), ("percent", JVal.null),
       ("secsleft", JVal.null), ("power_plugged", JVal.null)]
  | none => JVal.obj
      [("present", JVal.jbool false), ("percent", JVal.null),
       ("secsleft", JVal.null), ("power_plugged", JVal.null)]

/-- The function `_get_gpu_info()` (lines 100-117): `[]` whenever the `GPUtil` import
failed; otherwise whatever the loop accumulated (possibly cut short by the
swallowed exception). -/
def _get_gpu_info (gputil : Bool) (entries : List JVal) : List JVal :=
  if gputil then entries else []

/-- Lines 248-253: the `load_avg` sub-object, `null` when `os.getloadavg`
is missing or raised. -/
def loadavgSection : Option (ℚ × ℚ × ℚ) → JVal
  | none => JVal.null
  | some (a, b, c) => JVal.obj [("1", JVal.num a), ("5", JVal.num b), ("15", JVal.num c)]

/-- The `network_speeds` section from the speeds dict. -/
def netSpeedsSection (sp : NetSpeeds) : JVal :=
  JVal.obj [("bytes_sent_per_sec", JVal.num sp.bytes_sent_per_sec),
            ("bytes_recv_per_sec", JVal.num sp.bytes_recv_per_sec)]

/-- The `per_nic_speeds` section from the speeds dict. -/
def perNicSection (l : List (String × NicSpeed)) : JVal :=
  JVal.obj (l.map (fun p => (p.1, JVal.obj
    [("bytes_sent_per_sec", JVal.num p.2.bytes_sent_per_sec),
     ("bytes_recv_per_sec", JVal.num p.2.bytes_recv_per_sec),
     ("packets_sent", optNumJ p.2.packets_sent),
     ("packets_recv", optNumJ p.2.packets_recv)])))

/-- The `disk_io_speeds` section from the speeds dict. -/
def diskSpeedsSection (d : DiskSpeeds) : JVal :=
  JVal.obj [("read_bytes_per_sec", JVal.num d.read_bytes_per_sec),
            ("write_bytes_per_sec", JVal.num d.write_bytes_per_sec),
            ("read_count", optNumJ d.read_count),
            ("write_count", optNumJ d.write_count)]

/-- Everything the `/api/metrics` handler reads from its environment in one
call, in source order.  `none` on a guarded read means the corresponding
`except` branch fires; `vm`/`sm` (lines 256-257) are NOT guarded in the
source, so `none` there means the handler itself raises. -/
structure MetricsEnv where
  cpu_reading : Option (List ℚ)
  cpu_count_logical : Option ℕ
  cpu_count_physical : Option ℕ
  draws : ℕ → ℤ
  loadavg : Option (ℚ × ℚ × ℚ)
  vm : Option VMemInfo
  sm : Option SwapInfo
  disks : List JVal
  net_totals : Option NetTotals
  now : ℚ
  net : Option NetCounters
  net_pernic : Option (List (String × NetCounters))
  disk : Option DiskCounters
  prev : Snapshot
  disk_totals : Option DiskTotals
  gputil : Bool
  gpu_entries : List JVal
  interfaces : List JVal
  battery : Option (Option BatteryInfo)
  procs_cpu : List JVal
  procs_mem : List JVal
  page_faults : Option ℤ
  sysinfo : JVal
  uptime : Option String
  timestamp : String
  connections : Option ℕ

/-- The `/api/metrics` handler (app.py lines 225-374) assembling the
response dict of lines 354-374.  The unguarded `psutil.virtual_memory()` /
`psutil.swap_memory()` calls of lines 256-257 make the whole request fail
(`Except.error`) when they raise; every guarded provider degrades to a
null/zero/empty section instead.  Connections default to `0` (lines
343-347); the store side effect of `get_io_and_net_speeds` is dropped here
because only the returned speeds enter the response. -/
def metricsEndpoint (e : MetricsEnv) : Except Unit (List (String × JVal)) :=
  let cs := metricsCpuSample e.cpu_reading e.cpu_count_logical e.draws
  let cpu : JVal := JVal.obj
    [("cpu_percent", JVal.num cs.1),
     ("cpu_count_logical", optNatJ e.cpu_count_logical),
     ("cpu_count_physical", optNatJ e.cpu_count_physical),
     ("per_cpu", JVal.arr (cs.2.map JVal.num)),
     ("load_avg", loadavgSection e.loadavg)]
  match e.vm with
  | none => Except.error ()
  | some vm =>
    match e.sm with
    | none => Except.error ()
    | some sm =>
      let memory : JVal := JVal.obj
        [("virtual_percent", JVal.num vm.percent),
         ("virtual_total", JVal.num vm.total),
         ("virtual_available", JVal.num vm.available),
         ("swap_percent", JVal.num sm.percent),
         ("swap_total", JVal.num sm.total),
         ("page_faults", optNumJ (optOr vm.pfaults (optOr vm.pageins none)))]
      let sp := (get_io_and_net_speeds e.now e.net e.net_pernic e.disk e.prev).1
      Except.ok
        [("cpu", cpu),
         ("memory", memory),
         ("disks", JVal.arr e.disks),
         ("network_totals", netTotalsSection e.net_totals),
         ("network_speeds", netSpeedsSection sp.net),
         ("per_nic_speeds", perNicSection sp.per_nic),
         ("disk_io_speeds", diskSpeedsSection sp.disk),
         ("disk_io_totals", diskTotalsSection e.disk_totals),
         ("gpu", JVal.arr (_get_gpu_info e.gputil e.gpu_entries)),
         ("system_info", e.sysinfo),
         ("interfaces", JVal.arr e.interfaces),
         ("battery", batterySection e.battery),
         ("top_processes_cpu", JVal.arr e.procs_cpu),
         ("top_processes_mem", JVal.arr e.procs_mem),
         ("page_faults_total", optIntJ e.page_faults),
         ("uptime_boot_time", optStrJ e.uptime),
         ("timestamp", JVal.str e.timestamp),
         ("connections_count", JVal.num ((e.connections.getD 0 : ℕ) : ℚ)),
         ("message", JVal.null)]

/-- The fixed key list of the response dict literal (lines 354-374). -/
def metricsKeys : List String :=
  ["cpu", "memory", "disks", "network_totals", "network_speeds",
   "per_nic_speeds", "disk_io_speeds", "disk_io_totals", "gpu",
   "system_info", "interfaces", "battery", "top_processes_cpu",
   "top_processes_mem", "page_faults_total", "uptime_boot_time",
   "timestamp", "connections_count", "message"]

/-- A concrete environment whose (unguarded) virtual-memory read raises. -/
def envNoVm : MetricsEnv where
  cpu_reading := some [12, 34]
  cpu_count_logical := some 2
  cpu_count_physical := some 2
  draws := fun _ => 6
  loadavg := none
  vm := none
  sm := some ⟨10, 1000⟩
  disks := []
  net_totals := none
  now := 7
  net := none
  net_pernic := none
  disk := none
  prev := initSnapshot
  disk_totals := none
  gputil := false
  gpu_entries := []
  interfaces := []
  battery := none
  procs_cpu := []
  procs_mem := []
  page_faults := none
  sysinfo := JVal.null
  uptime := none
  timestamp := "t"
  connections := none

/-- A concrete environment in which the memory reads succeed but every
guarded ancillary provider is unavailable. -/
def envAllFallback : MetricsEnv where
  cpu_reading := some [12, 34]
  cpu_count_logical := some 2
  cpu_count_physical := some 2
  draws := fun _ => 6
  loadavg := none
  vm := some ⟨55, 1000, 450, none, none⟩
  sm := some ⟨10, 1000⟩
  disks := []
  net_totals := none
  now := 7
  net := none
  net_pernic := none
  disk := none
  prev := initSnapshot
  disk_totals := none
  gputil := false
  gpu_entries := []
  interfaces := []
  battery := none
  procs_cpu := []
  procs_mem := []
  page_faults := none
  sysinfo := JVal.null
  uptime := none
  timestamp := "t"
  connections := none

/-! ### Helper lemmas -/

lemma truthyQ_some_true {q : ℚ} (h : q ≠ 0) : truthyQ (some q) = true := by
  simp [truthyQ, h]

lemma calc_speed_formula (t1 t2 c1 c2 : ℚ) (h0 : t1 ≠ 0) (h1 : c1 ≠ 0)
    (h2 : 1/1000000 ≤ t2 - t1) :
    _calc_speed t2 (some t1) (some c2) (some c1) = (c2 - c1) / (t2 - t1) := by
  simp only [_calc_speed, truthyQ_some_true h0, truthyQ_some_true h1, if_true,
    Option.getD_some]
  rw [max_eq_left h2]

lemma nicEntry_time_none (now : ℚ) (pp : Option (List (String × NetCounters)))
    (nic : String) (c : NetCounters) :
    nicEntry now none pp nic c = ⟨0, 0, c.packets_sent, c.packets_recv⟩ := by
  unfold nicEntry
  cases prevNicLookup pp nic <;> simp [truthyQ]

lemma nicEntry_no_prev (now : ℚ) (pt : Option ℚ)
    (pp : Option (List (String × NetCounters))) (nic : String) (c : NetCounters)
    (h : prevNicLookup pp nic = none) :
    nicEntry now pt pp nic c = ⟨0, 0, c.packets_sent, c.packets_recv⟩ := by
  unfold nicEntry
  rw [h]

/-! ### Claim theorems -/

/-- C4: `_calc_speed` is total and never raises: a zero or negative elapsed
time is floored to the strictly positive epsilon `1e-6` and the rate is the
delta divided by that floor (no division fault), a missing previous scalar
gives a zero delta and hence rate `0`, and a missing current scalar (whose
subtraction would raise `TypeError` in Python) is caught and reported as
rate `0`. -/
theorem calc_speed_total_and_floored :
    (∀ t1 t2 c1 c2 : ℚ, t1 ≠ 0 → c1 ≠ 0 → t2 - t1 ≤ 0 →
        _calc_speed t2 (some t1) (some c2) (some c1) = (c2 - c1) / (1/1000000)) ∧
    (∀ (t2 : ℚ) (pt : Option ℚ) (c2 : ℚ),
        _calc_speed t2 pt (some c2) none = 0) ∧
    (∀ (t2 : ℚ) (pt pv : Option ℚ),
        _calc_speed t2 pt none pv = 0) := by
  refine ⟨fun t1 t2 c1 c2 h0 h1 hle => ?_, fun t2 pt c2 => ?_, fun t2 pt pv => ?_⟩
  · simp only [_calc_speed, truthyQ_some_true h0, truthyQ_some_true h1, if_true,
      Option.getD_some]
    rw [max_eq_right (by linarith)]
  · simp [_calc_speed, truthyQ]
  · simp [_calc_speed]

/-- Witness for C4 at concrete inputs: two polls at the identical time `3`
with counters `2` then `7` give rate `5 / 1e-6`; missing scalars give `0`. -/
theorem calc_speed_total_and_floored_witness :
    _calc_speed 3 (some 3) (some 7) (some 2) = (7 - 2) / (1/1000000) ∧
    _calc_speed 3 (some 3) (some 7) none = 0 ∧
    _calc_speed 3 (some 3) none (some 2) = 0 :=
  ⟨calc_speed_total_and_floored.1 3 3 2 7 (by norm_num) (by norm_num) (by norm_num),
   calc_speed_total_and_floored.2.1 3 (some 3) 7,
   calc_speed_total_and_floored.2.2 3 (some 3) (some 2)⟩

/-- C5: when the current counter value is strictly below the previous one
(and a previous sample with nonzero timestamp is present), the reported
rate is the raw arithmetic result `(current - previous) / elapsed` with the
elapsed-time floor, a strictly negative number — no clamping to zero, no
reset detection. -/
theorem counter_decrease_negative_rate (t1 t2 c1 c2 : ℚ)
    (h0 : t1 ≠ 0) (hc2 : 0 ≤ c2) (hlt : c2 < c1) :
    _calc_speed t2 (some t1) (some c2) (some c1)
      = (c2 - c1) / max (t2 - t1) (1/1000000) ∧
    _calc_speed t2 (some t1) (some c2) (some c1) < 0 := by
  have h1 : c1 ≠ 0 := ne_of_gt (lt_of_le_of_lt hc2 hlt)
  have heq : _calc_speed t2 (some t1) (some c2) (some c1)
      = (c2 - c1) / max (t2 - t1) (1/1000000) := by
    simp only [_calc_speed, truthyQ_some_true h0, truthyQ_some_true h1, if_true,
      Option.getD_some]
  refine ⟨heq, ?_⟩
  rw [heq]
  apply div_neg_of_neg_of_pos
  · linarith
  · exact lt_of_lt_of_le (by norm_num) (le_max_right _ _)

/-- Witness for C5: previous counter `10` at time `1`, current counter `4`
at time `2`: rate `(4 - 10) / 1 = -6 < 0`. -/
theorem counter_decrease_negative_rate_witness :
    _calc_speed 2 (some 1) (some 4) (some 10)
      = ((4 : ℚ) - 10) / max ((2 : ℚ) - 1) (1/1000000) ∧
    _calc_speed 2 (some 1) (some 4) (some 10) < 0 :=
  counter_decrease_negative_rate 1 2 10 4 (by norm_num) (by norm_num) (by norm_num)

/-- C1 counterexample: two consecutive successful polls at times
`T1 = 1 < T2 = 2` with previous counter `C1 = 0 ≤ C2 = 500` (a freshly
booted host that had sent nothing yet).  The claim demands the reported
rate `(C2 - C1)/(T2 - T1) = 500`, but `prev_val or now_val` in
`_calc_speed` treats the falsy previous value `0` as "use the current
value", so the code reports `0`. -/
theorem c1_counterexample :
    ((get_io_and_net_speeds 2 (some ⟨500, 0, none, none⟩) none none
        ((get_io_and_net_speeds 1 (some ⟨0, 0, none, none⟩) none none
          initSnapshot).2)).1).net.bytes_sent_per_sec = 0 ∧
    ((500 : ℚ) - 0) / ((2 : ℚ) - 1) = 500 ∧
    (0 : ℚ) ≠ 500 :=
  ⟨by norm_num [get_io_and_net_speeds, _calc_speed, truthyQ, initSnapshot],
   by norm_num, by norm_num⟩

/-- C1 (amended): for two consecutive polls at times `0 < T1 < T2` with
`T2 - T1 ≥ 1e-6`, both reads succeeding, and nonzero previous counter
values `C1 ≤ C2`, the reported per-second rate of each scalar counter
(aggregate network sent/recv bytes and disk read/write bytes) is exactly
`(C2 - C1)/(T2 - T1)`.  (The truthiness tests of the source void this for
a zero previous timestamp or a zero previous counter value, and the
epsilon floor voids it for `T2 - T1 < 1e-6` — hence the extra
hypotheses.) -/
theorem consecutive_polls_rate_formula (t1 t2 : ℚ) (n1 n2 : NetCounters)
    (d1 d2 : DiskCounters) (p1 p2 : Option (List (String × NetCounters)))
    (s0 : Snapshot)
    (ht0 : 0 < t1) (ht : t1 + 1/1000000 ≤ t2)
    (hn1 : n1.bytes_sent ≠ 0) (hn2 : n1.bytes_recv ≠ 0)
    (hd1 : d1.read_bytes ≠ 0) (hd2 : d1.write_bytes ≠ 0)
    (hm1 : n1.bytes_sent ≤ n2.bytes_sent) (hm2 : n1.bytes_recv ≤ n2.bytes_recv)
    (hm3 : d1.read_bytes ≤ d2.read_bytes) (hm4 : d1.write_bytes ≤ d2.write_bytes) :
    ((get_io_and_net_speeds t2 (some n2) p2 (some d2)
        ((get_io_and_net_speeds t1 (some n1) p1 (some d1) s0).2)).1).net.bytes_sent_per_sec
      = (n2.bytes_sent - n1.bytes_sent) / (t2 - t1) ∧
    ((get_io_and_net_speeds t2 (some n2) p2 (some d2)
        ((get_io_and_net_speeds t1 (some n1) p1 (some d1) s0).2)).1).net.bytes_recv_per_sec
      = (n2.bytes_recv - n1.bytes_recv) / (t2 - t1) ∧
    ((get_io_and_net_speeds t2 (some n2) p2 (some d2)
        ((get_io_and_net_speeds t1 (some n1) p1 (some d1) s0).2)).1).disk.read_bytes_per_sec
      = (d2.read_bytes - d1.read_bytes) / (t2 - t1) ∧
    ((get_io_and_net_speeds t2 (some n2) p2 (some d2)
        ((get_io_and_net_speeds t1 (some n1) p1 (some d1) s0).2)).1).disk.write_bytes_per_sec
      = (d2.write_bytes - d1.write_bytes) / (t2 - t1) := by
  have ht1 : t1 ≠ 0 := ne_of_gt ht0
  have hdt : 1/1000000 ≤ t2 - t1 := by linarith
  have hs : (get_io_and_net_speeds t1 (some n1) p1 (some d1) s0).2
      = ⟨some t1, some n1, p1, some d1⟩ := rfl
  rw [hs]
  simp only [get_io_and_net_speeds, truthyQ_some_true ht1, if_true]
  exact ⟨calc_speed_formula t1 t2 _ _ ht1 hn1 hdt,
    calc_speed_formula t1 t2 _ _ ht1 hn2 hdt,
    calc_speed_formula t1 t2 _ _ ht1 hd1 hdt,
    calc_speed_formula t1 t2 _ _ ht1 hd2 hdt⟩

/-- Witness for the amended C1: the spec's worked example shifted to a
nonzero previous timestamp — previous `{t = 1, bytes_sent = 1000}`,
current `{t = 2, bytes_sent = 1500}` gives `bytes_sent_per_sec = 500`,
and likewise for the other three scalar counters. -/
theorem consecutive_polls_rate_formula_witness :
    ((get_io_and_net_speeds 2 (some ⟨1500, 7, none, none⟩) none (some ⟨120, 230, none, none⟩)
        ((get_io_and_net_speeds 1 (some ⟨1000, 3, none, none⟩) none (some ⟨20, 30, none, none⟩)
          initSnapshot).2)).1).net.bytes_sent_per_sec = ((1500 : ℚ) - 1000) / ((2 : ℚ) - 1) ∧
    ((get_io_and_net_speeds 2 (some ⟨1500, 7, none, none⟩) none (some ⟨120, 230, none, none⟩)
        ((get_io_and_net_speeds 1 (some ⟨1000, 3, none, none⟩) none (some ⟨20, 30, none, none⟩)
          initSnapshot).2)).1).net.bytes_recv_per_sec = ((7 : ℚ) - 3) / ((2 : ℚ) - 1) ∧
    ((get_io_and_net_speeds 2 (some ⟨1500, 7, none, none⟩) none (some ⟨120, 230, none, none⟩)
        ((get_io_and_net_speeds 1 (some ⟨1000, 3, none, none⟩) none (some ⟨20, 30, none, none⟩)
          initSnapshot).2)).1).disk.read_bytes_per_sec = ((120 : ℚ) - 20) / ((2 : ℚ) - 1) ∧
    ((get_io_and_net_speeds 2 (some ⟨1500, 7, none, none⟩) none (some ⟨120, 230, none, none⟩)
        ((get_io_and_net_speeds 1 (some ⟨1000, 3, none, none⟩) none (some ⟨20, 30, none, none⟩)
          initSnapshot).2)).1).disk.write_bytes_per_sec = ((230 : ℚ) - 30) / ((2 : ℚ) - 1) :=
  consecutive_polls_rate_formula 1 2 ⟨1000, 3, none, none⟩ ⟨1500, 7, none, none⟩
    ⟨20, 30, none, none⟩ ⟨120, 230, none, none⟩ none none initSnapshot
    (by norm_num) (by norm_num) (by norm_num) (by norm_num) (by norm_num)
    (by norm_num) (by norm_num) (by norm_num) (by norm_num) (by norm_num)

/-- C7 counterexample: poll 1 succeeds (`t = 1`, `bytes_sent = 100`),
poll 2's network read fails (rates `0`, and `None` counters are stored),
poll 3 succeeds (`t = 3`, `bytes_sent = 300`).  The claim says poll 3 — the
first successful poll after the failure — reports rates "computed normally
from two samples again"; the code reports `0` (a cold start, because the
failed poll stored no counters), not the two-sample rate
`(300 - 100)/(3 - 1) = 100`. -/
theorem c7_counterexample :
    ((get_io_and_net_speeds 2 none none none
        ((get_io_and_net_speeds 1 (some ⟨100, 0, none, none⟩) none none
          initSnapshot).2)).1).net = ⟨0, 0⟩ ∧
    ((get_io_and_net_speeds 3 (some ⟨300, 0, none, none⟩) none none
        ((get_io_and_net_speeds 2 none none none
          ((get_io_and_net_speeds 1 (some ⟨100, 0, none, none⟩) none none
            initSnapshot).2)).2)).1).net.bytes_sent_per_sec = 0 ∧
    ((300 : ℚ) - 100) / ((3 : ℚ) - 1) = 100 ∧
    (0 : ℚ) ≠ 100 :=
  ⟨rfl,
   by norm_num [get_io_and_net_speeds, _calc_speed, truthyQ, initSnapshot],
   by norm_num, by norm_num⟩

/-- C7 (amended): a transient network-counter read failure at poll `k`
yields zero rates at poll `k` AND at the next successful poll `k+1` (which
behaves as a cold start, because the failed poll stored `None` counters);
from poll `k+2` on — i.e. after two consecutive successful polls — rates
are computed normally from two samples again. -/
theorem transient_failure_two_poll_recovery (t2 t3 t4 : ℚ)
    (n3 n4 : NetCounters) (s1 : Snapshot)
    (ht3 : 0 < t3) (ht4 : t3 + 1/1000000 ≤ t4) (hc3 : n3.bytes_sent ≠ 0) :
    ((get_io_and_net_speeds t2 none none none s1).1).net = ⟨0, 0⟩ ∧
    ((get_io_and_net_speeds t3 (some n3) none none
        ((get_io_and_net_speeds t2 none none none s1).2)).1).net = ⟨0, 0⟩ ∧
    ((get_io_and_net_speeds t4 (some n4) none none
        ((get_io_and_net_speeds t3 (some n3) none none
          ((get_io_and_net_speeds t2 none none none s1).2)).2)).1).net.bytes_sent_per_sec
      = (n4.bytes_sent - n3.bytes_sent) / (t4 - t3) := by
  have ht3' : t3 ≠ 0 := ne_of_gt ht3
  have hdt : 1/1000000 ≤ t4 - t3 := by linarith
  refine ⟨rfl, rfl, ?_⟩
  have hs : (get_io_and_net_speeds t3 (some n3) none none
      ((get_io_and_net_speeds t2 none none none s1).2)).2
      = ⟨some t3, some n3, none, none⟩ := rfl
  rw [hs]
  simp only [get_io_and_net_speeds, truthyQ_some_true ht3', if_true]
  exact calc_speed_formula t3 t4 _ _ ht3' hc3 hdt

/-- Witness for the amended C7: failure at `t = 2`, success at `t = 3` with
`bytes_sent = 300` (rate `0`), success at `t = 4` with `bytes_sent = 700`
(rate `(700 - 300)/(4 - 3) = 400`). -/
theorem transient_failure_two_poll_recovery_witness :
    ((get_io_and_net_speeds 2 none none none initSnapshot).1).net = ⟨0, 0⟩ ∧
    ((get_io_and_net_speeds 3 (some ⟨300, 9, none, none⟩) none none
        ((get_io_and_net_speeds 2 none none none initSnapshot).2)).1).net = ⟨0, 0⟩ ∧
    ((get_io_and_net_speeds 4 (some ⟨700, 11, none, none⟩) none none
        ((get_io_and_net_speeds 3 (some ⟨300, 9, none, none⟩) none none
          ((get_io_and_net_speeds 2 none none none initSnapshot).2)).2)).1).net.bytes_sent_per_sec
      = ((700 : ℚ) - 300) / ((4 : ℚ) - 3) :=
  transient_failure_two_poll_recovery 2 3 4 ⟨300, 9, none, none⟩ ⟨700, 11, none, none⟩
    initSnapshot (by norm_num) (by norm_num) (by norm_num)

/-- C2: on a poll whose stored previous timestamp is absent (`None`, as at
process start), every reported rate — aggregate network sent/recv, every
per-NIC rate, and disk read/write — is `0`, regardless of the counter
values read, and the store afterwards holds exactly the current timestamp
and the three reads. -/
theorem first_poll_all_rates_zero (now : ℚ) (net : Option NetCounters)
    (pern : Option (List (String × NetCounters))) (dk : Option DiskCounters)
    (s : Snapshot) (h : s.time = none) :
    (get_io_and_net_speeds now net pern dk s).1.net = ⟨0, 0⟩ ∧
    (∀ e ∈ (get_io_and_net_speeds now net pern dk s).1.per_nic,
        e.2.bytes_sent_per_sec = 0 ∧ e.2.bytes_recv_per_sec = 0) ∧
    (get_io_and_net_speeds now net pern dk s).1.disk.read_bytes_per_sec = 0 ∧
    (get_io_and_net_speeds now net pern dk s).1.disk.write_bytes_per_sec = 0 ∧
    (get_io_and_net_speeds now net pern dk s).2 = ⟨some now, net, pern, dk⟩ := by
  obtain ⟨st, sn, sp, sd⟩ := s
  have h' : st = none := h
  subst h'
  refine ⟨?_, ?_, ?_, ?_, rfl⟩
  · cases net <;> cases sn <;> simp [get_io_and_net_speeds, truthyQ]
  · cases pern with
    | none => intro e he; simp [get_io_and_net_speeds] at he
    | some l =>
        intro e he
        simp only [get_io_and_net_speeds, List.mem_map] at he
        obtain ⟨p, -, rfl⟩ := he
        rw [nicEntry_time_none]
        exact ⟨rfl, rfl⟩
  · cases dk <;> cases sd <;> simp [get_io_and_net_speeds, truthyQ]
  · cases dk <;> cases sd <;> simp [get_io_and_net_speeds, truthyQ]

/-- Witness for C2: first poll on the empty store at `t = 5` with counters
`bytes_sent = 2000` (the spec's own cold-start example), one NIC and disk
counters present: all rates `0` and the store holds the read sample. -/
theorem first_poll_all_rates_zero_witness :
    (get_io_and_net_speeds 5 (some ⟨2000, 17, some 4, some 6⟩)
        (some [("eth0", ⟨2000, 17, some 4, some 6⟩)]) (some ⟨40, 50, some 1, some 2⟩)
        initSnapshot).1.net = ⟨0, 0⟩ ∧
    (∀ e ∈ (get_io_and_net_speeds 5 (some ⟨2000, 17, some 4, some 6⟩)
        (some [("eth0", ⟨2000, 17, some 4, some 6⟩)]) (some ⟨40, 50, some 1, some 2⟩)
        initSnapshot).1.per_nic,
        e.2.bytes_sent_per_sec = 0 ∧ e.2.bytes_recv_per_sec = 0) ∧
    (get_io_and_net_speeds 5 (some ⟨2000, 17, some 4, some 6⟩)
        (some [("eth0", ⟨2000, 17, some 4, some 6⟩)]) (some ⟨40, 50, some 1, some 2⟩)
        initSnapshot).1.disk.read_bytes_per_sec = 0 ∧
    (get_io_and_net_speeds 5 (some ⟨2000, 17, some 4, some 6⟩)
        (some [("eth0", ⟨2000, 17, some 4, some 6⟩)]) (some ⟨40, 50, some 1, some 2⟩)
        initSnapshot).1.disk.write_bytes_per_sec = 0 ∧
    (get_io_and_net_speeds 5 (some ⟨2000, 17, some 4, some 6⟩)
        (some [("eth0", ⟨2000, 17, some 4, some 6⟩)]) (some ⟨40, 50, some 1, some 2⟩)
        initSnapshot).2 = ⟨some 5, some ⟨2000, 17, some 4, some 6⟩,
          some [("eth0", ⟨2000, 17, some 4, some 6⟩)], some ⟨40, 50, some 1, some 2⟩⟩ :=
  first_poll_all_rates_zero 5 (some ⟨2000, 17, some 4, some 6⟩)
    (some [("eth0", ⟨2000, 17, some 4, some 6⟩)]) (some ⟨40, 50, some 1, some 2⟩)
    initSnapshot rfl

/-- C3: on a poll with a previous sample present whose current per-NIC read
yields the map `l`: (1) the result's per-NIC key list is exactly `l`'s key
list; (2) a NIC of `l` with no entry in the stored previous per-NIC map is
reported with both rates `0` and its packet counts taken from the current
counters; (3) a NIC absent from `l` (e.g. present only in the previous
sample) does not appear in the result at all. -/
theorem pernic_keyset_current (now : ℚ) (net : Option NetCounters)
    (l : List (String × NetCounters)) (dk : Option DiskCounters)
    (s : Snapshot) (t : ℚ) (hprev : s.time = some t) :
    (get_io_and_net_speeds now net (some l) dk s).1.per_nic.map Prod.fst
      = l.map Prod.fst ∧
    (∀ p ∈ l, prevNicLookup s.net_pernic p.1 = none →
        (p.1, (⟨0, 0, p.2.packets_sent, p.2.packets_recv⟩ : NicSpeed))
          ∈ (get_io_and_net_speeds now net (some l) dk s).1.per_nic) ∧
    (∀ nic : String, nic ∉ l.map Prod.fst →
        nic ∉ (get_io_and_net_speeds now net (some l) dk s).1.per_nic.map Prod.fst) := by
  have hr : (get_io_and_net_speeds now net (some l) dk s).1.per_nic
      = l.map (fun p => (p.1, nicEntry now s.time s.net_pernic p.1 p.2)) := rfl
  have hkeys : (get_io_and_net_speeds now net (some l) dk s).1.per_nic.map Prod.fst
      = l.map Prod.fst := by
    rw [hr, List.map_map]
    rfl
  refine ⟨hkeys, ?_, ?_⟩
  · intro p hp hnone
    have hmem : (p.1, nicEntry now s.time s.net_pernic p.1 p.2)
        ∈ (get_io_and_net_speeds now net (some l) dk s).1.per_nic := by
      rw [hr]
      exact List.mem_map_of_mem _ hp
    rwa [nicEntry_no_prev now s.time s.net_pernic p.1 p.2 hnone] at hmem
  · intro nic hnic
    rw [hkeys]
    exact hnic

/-- Witness for C3: previous per-NIC map has only `eth0`; current has
`eth0` and the new `eth1`, whose entry is reported with zero rates and its
current packet counts, and whose key list is exactly `[eth0, eth1]`. -/
theorem pernic_keyset_current_witness :
    (get_io_and_net_speeds 2 none
        (some [("eth0", ⟨300, 0, none, none⟩), ("eth1", ⟨50, 0, some 5, some 6⟩)]) none
        ⟨some 1, none, some [("eth0", ⟨100, 0, none, none⟩)], none⟩).1.per_nic.map Prod.fst
      = [("eth0", (⟨300, 0, none, none⟩ : NetCounters)),
         ("eth1", ⟨50, 0, some 5, some 6⟩)].map Prod.fst ∧
    (∀ p ∈ [("eth0", (⟨300, 0, none, none⟩ : NetCounters)),
         ("eth1", ⟨50, 0, some 5, some 6⟩)],
        prevNicLookup (some [("eth0", ⟨100, 0, none, none⟩)]) p.1 = none →
        (p.1, (⟨0, 0, p.2.packets_sent, p.2.packets_recv⟩ : NicSpeed))
          ∈ (get_io_and_net_speeds 2 none
              (some [("eth0", ⟨300, 0, none, none⟩), ("eth1", ⟨50, 0, some 5, some 6⟩)]) none
              ⟨some 1, none, some [("eth0", ⟨100, 0, none, none⟩)], none⟩).1.per_nic) ∧
    (∀ nic : String,
        nic ∉ [("eth0", (⟨300, 0, none, none⟩ : NetCounters)),
          ("eth1", ⟨50, 0, some 5, some 6⟩)].map Prod.fst →
        nic ∉ (get_io_and_net_speeds 2 none
            (some [("eth0", ⟨300, 0, none, none⟩), ("eth1", ⟨50, 0, some 5, some 6⟩)]) none
            ⟨some 1, none, some [("eth0", ⟨100, 0, none, none⟩)], none⟩).1.per_nic.map Prod.fst) :=
  pernic_keyset_current 2 none
    [("eth0", ⟨300, 0, none, none⟩), ("eth1", ⟨50, 0, some 5, some 6⟩)] none
    ⟨some 1, none, some [("eth0", ⟨100, 0, none, none⟩)], none⟩ 1 rfl

/-- C10: every entry of the per-NIC speed result takes its `packets_sent`
and `packets_recv` from the current sample's counters (which are `none`
exactly when the current counters lack them), never from the previous
sample: the per-NIC result is the pointwise image of the current map under
`nicEntry`, and `nicEntry` copies the packet counts of the current
counters in every branch — whatever the previous sample was, including on
the very first poll. -/
theorem pernic_packets_from_current :
    (∀ (now : ℚ) (net : Option NetCounters) (l : List (String × NetCounters))
        (dk : Option DiskCounters) (s : Snapshot),
        (get_io_and_net_speeds now net (some l) dk s).1.per_nic
          = l.map (fun p => (p.1, nicEntry now s.time s.net_pernic p.1 p.2))) ∧
    (∀ (now : ℚ) (pt : Option ℚ) (pp : Option (List (String × NetCounters)))
        (nic : String) (c : NetCounters),
        (nicEntry now pt pp nic c).packets_sent = c.packets_sent ∧
        (nicEntry now pt pp nic c).packets_recv = c.packets_recv) := by
  refine ⟨fun now net l dk s => rfl, fun now pt pp nic c => ?_⟩
  unfold nicEntry
  cases prevNicLookup pp nic with
  | none => exact ⟨rfl, rfl⟩
  | some pc =>
      by_cases h : truthyQ pt = true <;> simp [h]

lemma mul_length_le_sum (a : ℚ) :
    ∀ l : List ℚ, (∀ x ∈ l, a ≤ x) → a * l.length ≤ l.sum := by
  intro l
  induction l with
  | nil => simp
  | cons x xs ih =>
      intro h
      have hx : a ≤ x := h x (by simp)
      have hxs := ih (fun y hy => h y (by simp [hy]))
      simp only [List.sum_cons, List.length_cons]
      push_cast
      rw [mul_add, mul_one]
      linarith

lemma le_listMean (a : ℚ) (l : List ℚ) (hne : l ≠ []) (h : ∀ x ∈ l, a ≤ x) :
    a ≤ listMean l := by
  have hlen : 0 < (l.length : ℚ) := by
    exact_mod_cast List.length_pos.mpr hne
  rw [listMean, le_div_iff₀ hlen]
  exact mul_length_le_sum a l h

lemma floor_le_roundHalfEven (q : ℚ) : ⌊q⌋ ≤ roundHalfEven q := by
  unfold roundHalfEven
  split_ifs <;> omega

lemma pyRound1_pos_of_six_le (q : ℚ) (h : 6 ≤ q) : 0 < pyRound1 q := by
  have h1 : (60 : ℤ) ≤ ⌊q * 10⌋ := by
    apply Int.le_floor.mpr
    push_cast
    linarith
  have h2 : (60 : ℤ) ≤ roundHalfEven (q * 10) :=
    le_trans h1 (floor_le_roundHalfEven _)
  have h3 : (0 : ℚ) < (roundHalfEven (q * 10) : ℚ) := by
    exact_mod_cast lt_of_lt_of_le (by norm_num) h2
  unfold pyRound1
  exact div_pos h3 (by norm_num)

/-- C8: whenever the blocking per-CPU sampling raises, or yields an empty
or all-zero list, the per-CPU list is replaced by one synthetic placeholder
per logical core — an integer drawn from `[6, 10]`, hence strictly
positive — and the overall CPU percent is the rounded mean of those
per-core values, itself strictly positive: the CPU section is never
all-zero. -/
theorem cpu_fallback_synthetic_positive (reading : Option (List ℚ))
    (cc : Option ℕ) (draws : ℕ → ℤ)
    (hfail : reading = none ∨ ∃ l, reading = some l ∧ (l = [] ∨ ∀ x ∈ l, x = 0))
    (hdraws : ∀ i, 6 ≤ draws i ∧ draws i ≤ 10) :
    (metricsCpuSample reading cc draws).2 = cpuFallbackList cc draws ∧
    (metricsCpuSample reading cc draws).2.length = cpuLogicalOr1 cc ∧
    0 < cpuLogicalOr1 cc ∧
    (∀ x ∈ (metricsCpuSample reading cc draws).2, 6 ≤ x ∧ x ≤ 10) ∧
    (metricsCpuSample reading cc draws).1
      = pyRound1 (listMean (metricsCpuSample reading cc draws).2) ∧
    0 < (metricsCpuSample reading cc draws).1 := by
  have hcount : 0 < cpuLogicalOr1 cc := by
    unfold cpuLogicalOr1
    rcases cc with - | - | n <;> simp
  have hfb : metricsCpuSample reading cc draws = cpuFallback cc draws := by
    rcases hfail with rfl | ⟨l, rfl, hl⟩
    · rfl
    · rcases hl with rfl | hzero
      · rfl
      · have hany : l.any (fun p => decide (0 < p)) = false := by
          rw [List.any_eq_false]
          intro x hx
          rw [hzero x hx]
          simp
        simp [metricsCpuSample, hany]
  have hlist : (cpuFallback cc draws).2 = cpuFallbackList cc draws := rfl
  have hbound : ∀ x ∈ cpuFallbackList cc draws, 6 ≤ x ∧ x ≤ 10 := by
    intro x hx
    unfold cpuFallbackList at hx
    rw [List.mem_map] at hx
    obtain ⟨i, -, rfl⟩ := hx
    constructor
    · exact_mod_cast (hdraws i).1
    · exact_mod_cast (hdraws i).2
  have hne : cpuFallbackList cc draws ≠ [] := by
    unfold cpuFallbackList
    simp only [ne_eq, List.map_eq_nil_iff, List.range_eq_nil]
    omega
  have hmean : 6 ≤ listMean (cpuFallbackList cc draws) :=
    le_listMean 6 _ hne (fun x hx => (hbound x hx).1)
  have hlen : (cpuFallbackList cc draws).length = cpuLogicalOr1 cc := by
    unfold cpuFallbackList
    simp
  rw [hfb]
  exact ⟨hlist, by rw [hlist, hlen], hcount, by rw [hlist]; exact hbound,
    rfl, pyRound1_pos_of_six_le _ hmean⟩

/-- Witness for C8: an all-zero two-core reading `[0, 0]` with constant
draw `7`: the per-CPU list becomes the synthetic `[7, 7]` and the overall
percent is positive. -/
theorem cpu_fallback_synthetic_positive_witness :
    (metricsCpuSample (some [0, 0]) (some 2) (fun _ => 7)).2
      = cpuFallbackList (some 2) (fun _ => 7) ∧
    (metricsCpuSample (some [0, 0]) (some 2) (fun _ => 7)).2.length
      = cpuLogicalOr1 (some 2) ∧
    0 < cpuLogicalOr1 (some 2) ∧
    (∀ x ∈ (metricsCpuSample (some [0, 0]) (some 2) (fun _ => 7)).2, 6 ≤ x ∧ x ≤ 10) ∧
    (metricsCpuSample (some [0, 0]) (some 2) (fun _ => 7)).1
      = pyRound1 (listMean (metricsCpuSample (some [0, 0]) (some 2) (fun _ => 7)).2) ∧
    0 < (metricsCpuSample (some [0, 0]) (some 2) (fun _ => 7)).1 :=
  cpu_fallback_synthetic_positive (some [0, 0]) (some 2) (fun _ => 7)
    (Or.inr ⟨[0, 0], rfl, Or.inr (by intro x hx; rcases List.mem_pair.mp hx with rfl | rfl <;> rfl)⟩)
    (fun i => by norm_num)

/-- C6: the code has no lock, and `_prev_snapshot` is read field by field
(lines 142-145) and written field by field (lines 192-195).  In the
GIL-atomic interleaving model, the schedule `schedMix` — poller A (writing
sample 1) performs its four reads and its `time` write, then poller B
(writing sample 2) performs its four reads, then both finish — leaves
poller B observing the previous `time` from sample 1 but `net` (and the
rest) from the older sample 0: a previous sample mixing fields of two
different raw samples, so the store's read and replace are NOT mutually
indivisible under concurrent pollers. -/
theorem store_interleaving_mixes_samples :
    (runSched schedMix ⟨0, 0, 0, 0⟩ (mkPoller 1) (mkPoller 2)).2.2.obsTime = some 1 ∧
    (runSched schedMix ⟨0, 0, 0, 0⟩ (mkPoller 1) (mkPoller 2)).2.2.obsNet = some 0 ∧
    ¬ consistentObs (runSched schedMix ⟨0, 0, 0, 0⟩ (mkPoller 1) (mkPoller 2)).2.2 := by
  have hB : (runSched schedMix ⟨0, 0, 0, 0⟩ (mkPoller 1) (mkPoller 2)).2.2
      = ⟨2, [], some 1, some 0, some 0, some 0⟩ := rfl
  refine ⟨rfl, rfl, ?_⟩
  rintro ⟨k, hk1, hk2, -, -⟩
  rw [hB] at hk1 hk2
  simp only [Option.some.injEq] at hk1 hk2
  omega

/-- C9 counterexample: in the environment `envNoVm`, where only the
memory subsystem is unavailable (`psutil.virtual_memory()` raises — it is
the one read of the handler not wrapped in `try/except`), the whole
request aborts: no response object, no keys at all, contradicting the
claim's "never aborts the whole response / never a missing key". -/
theorem c9_counterexample :
    metricsEndpoint envNoVm = Except.error () ∧
    ∀ resp, metricsEndpoint envNoVm ≠ Except.ok resp := by
  refine ⟨rfl, fun resp h => ?_⟩
  rw [(rfl : metricsEndpoint envNoVm = Except.error ())] at h
  exact Except.noConfusion h

/-- C9 (amended): provided the two unguarded memory reads succeed, every
response of the metrics endpoint carries exactly the fixed top-level key
list (the claim's eighteen keys plus `message`), in order, regardless of
which other subsystems are available; and each guarded provider that is
unavailable yields a null/zero/empty section rather than a missing key:
zeroed network totals, nulled disk-io totals, a `present = false` battery,
an empty GPU list, null page faults and uptime, and a zero connection
count. -/
theorem metrics_response_fixed_keys (e : MetricsEnv) (vm : VMemInfo) (sm : SwapInfo)
    (hvm : e.vm = some vm) (hsm : e.sm = some sm) :
    ∃ resp, metricsEndpoint e = Except.ok resp ∧
      resp.map Prod.fst = metricsKeys ∧
      (e.net_totals = none → ("network_totals", netTotalsSection none) ∈ resp) ∧
      (e.disk_totals = none → ("disk_io_totals", diskTotalsSection none) ∈ resp) ∧
      (e.battery = none → ("battery", batterySection none) ∈ resp) ∧
      (e.gputil = false → ("gpu", JVal.arr []) ∈ resp) ∧
      (e.page_faults = none → ("page_faults_total", JVal.null) ∈ resp) ∧
      (e.uptime = none → ("uptime_boot_time", JVal.null) ∈ resp) ∧
      (e.connections = none → ("connections_count", JVal.num 0) ∈ resp) := by
  unfold metricsEndpoint
  rw [hvm, hsm]
  refine ⟨_, rfl, rfl, ?_, ?_, ?_, ?_, ?_, ?_, ?_⟩ <;> intro h <;> rw [h] <;>
    simp [_get_gpu_info, optIntJ, optStrJ]

/-- Witness for the amended C9: in `envAllFallback` (memory reads succeed,
every guarded provider unavailable) the response exists, its key list is
the fixed one, and every unavailable section is the null/zero/empty
object. -/
theorem metrics_response_fixed_keys_witness :
    ∃ resp, metricsEndpoint envAllFallback = Except.ok resp ∧
      resp.map Prod.fst = metricsKeys ∧
      (envAllFallback.net_totals = none →
        ("network_totals", netTotalsSection none) ∈ resp) ∧
      (envAllFallback.disk_totals = none →
        ("disk_io_totals", diskTotalsSection none) ∈ resp) ∧
      (envAllFallback.battery = none → ("battery", batterySection none) ∈ resp) ∧
      (envAllFallback.gputil = false → ("gpu", JVal.arr []) ∈ resp) ∧
      (envAllFallback.page_faults = none →
        ("page_faults_total", JVal.null) ∈ resp) ∧
      (envAllFallback.uptime = none → ("uptime_boot_time", JVal.null) ∈ resp) ∧
      (envAllFallback.connections = none →
        ("connections_count", JVal.num 0) ∈ resp) :=
  metrics_response_fixed_keys envAllFallback ⟨55, 1000, 450, none, none⟩ ⟨10, 1000⟩ rfl rfl
